import Mathlib

/-!
Shallow embedding of the HUD Properties Cloud Dashboard (src/app.py):
the Dropbox sync component (DropboxDatabaseSync), the local database
file it maintains, and the read-path HTTP handlers (/api/dashboard_stats,
/api/properties, /api/force_sync).

Conventions of the embedding:
* The local filesystem is the single file at LOCAL_DB_PATH, modelled as
  an Option DBFile (none = file absent).  A DBFile is either a valid
  SQLite database (tables modelled as lists of typed rows) or corrupt
  bytes, in which case every SQL statement executed against it raises
  the carried sqlite error message.
* datetime values are abstracted as strings (their rendered form), so
  datetime.now() is an environment input and strftime is the identity.
* SQLite TEXT comparison (memcmp on the encoding) is embedded as a
  byte-wise order on the character list of the string.
* Exceptions are explicit: operations that can raise return an Except
  or an outcome type with a raises constructor; a Python try/except
  corresponds to matching on that outcome.
-/

namespace HudDashboard

/-! ### SQLite TEXT ordering and Python substring test -/

/-- Byte-wise strict order on character lists, as SQLite compares TEXT
values (binary collation). -/
def strLtL : List Char → List Char → Bool
  | _, [] => false
  | [], _ :: _ => true
  | a :: as, b :: bs => decide (a < b) || (a == b && strLtL as bs)

/-- Strict order on strings: SQLite binary collation of TEXT values. -/
def strLt (a b : String) : Bool := strLtL a.data b.data

/-- Reflexive order on strings derived from strLt. -/
def strLe (a b : String) : Bool := strLt a b || decide (a = b)

/-- Does the pattern match at the head of the list (helper for the
Python substring test). -/
def startsL : List Char → List Char → Bool
  | [], _ => true
  | _ :: _, [] => false
  | a :: as, b :: bs => a == b && startsL as bs

/-- Does the pattern occur anywhere in the list (Python: pat in s). -/
def hasSubL (pat : List Char) : List Char → Bool
  | [] => startsL pat []
  | b :: rest => startsL pat (b :: rest) || hasSubL pat rest

/-- Python test at app.py:86 on the stringified ApiError:
'path/not_found' in str(e). -/
def containsNotFound (msg : String) : Bool :=
  hasSubL "path/not_found".data msg.data

/-! ### Data model: the local SQLite database file -/

/-- One row of the properties table.  Column types follow the schema
written by the scraper and read by the queries in app.py; price is
nullable (REAL), case_number, scrape_date, state and status are the
TEXT/DATE values the queries compare against. -/
structure Row where
  case_number : String
  scrape_date : String
  state : String
  address : Option String
  price : Option ℚ
  bedrooms : Option ℚ
  bathrooms : Option ℚ
  status : String
deriving DecidableEq

/-- One row of the property_analytics table (app.py:814). -/
structure AnalyticsRow where
  case_number : String
  total_days_on_market : Option Int
deriving DecidableEq

/-- A SQLite table: its declared column names and its rows. -/
structure Table where
  cols : List String
  rows : List Row
deriving DecidableEq

/-- The database: the properties table and the property_analytics
table, each possibly absent (a query touching an absent table raises
no such table). -/
structure DB where
  properties : Option Table
  property_analytics : Option (List AnalyticsRow)
deriving DecidableEq

/-- Contents of the local file at LOCAL_DB_PATH: either a valid SQLite
database, or bytes that are not a database, in which case executing any
statement raises the carried message (e.g. a partially written
download). -/
inductive DBFile
  | corrupt (msg : String)
  | db (d : DB)
deriving DecidableEq

/-- The local filesystem as seen by app.py: the single file at
LOCAL_DB_PATH, or none when os.path.exists is false. -/
abbrev FS := Option DBFile

/-! ### The Dropbox sync component -/

/-- The mutable attributes of DropboxDatabaseSync (app.py:32-36). -/
structure SyncState where
  enabled : Bool
  sync_status : String
  last_sync : Option String
deriving DecidableEq

/-- Outcome of the users_get_current_account connection test during
construction (app.py:46). -/
inductive ConnectOutcome
  | ok
  | fail (msg : String)
deriving DecidableEq

/-- Outcome of dbx.files_download (app.py:65): the downloaded bytes, a
dropbox.exceptions.ApiError with its str(e), or any other exception. -/
inductive DownloadOutcome
  | ok (content : DBFile)
  | apiError (msg : String)
  | otherError (msg : String)
deriving DecidableEq

/-- Outcome of the local write (app.py:68-69).  open(path, 'wb')
truncates the file before write, so a failure of the write itself
leaves truncated/partial bytes behind, while a failure of open leaves
the file untouched. -/
inductive WriteOutcome
  | ok
  | openFail (msg : String)
  | truncated (msg : String) (leftover : DBFile)
deriving DecidableEq

/-- Environment of one sync_database invocation: what the Dropbox API
and the local filesystem do, and the current wall-clock time. -/
structure SyncEnv where
  download : DownloadOutcome
  write : WriteOutcome
  now : String
deriving DecidableEq

/-- How one sync_database invocation terminates: a return value, or an
exception propagating past the method boundary. -/
inductive SyncResult
  | returns (b : Bool)
  | raises (msg : String)
deriving DecidableEq

/-- Full effect of one sync_database invocation: its termination, the
component state and local file afterwards, and how many Dropbox API
calls were made. -/
structure SyncStep where
  result : SyncResult
  state : SyncState
  fs : FS
  remoteCalls : Nat
deriving DecidableEq

/-- Column list of the CREATE TABLE statement at app.py:89-91. -/
def bootstrapCols : List String :=
  ["case_number", "scrape_date", "state", "address", "price", "status"]

/-- sqlite3.connect(local_db) followed by
CREATE TABLE IF NOT EXISTS properties (...) (app.py:88-92).
connect creates the file when absent; executing the statement against a
corrupt file raises sqlite's error for it. -/
def bootstrapDB : FS → Except String FS
  | none => .ok (some (.db ⟨some ⟨bootstrapCols, []⟩, none⟩))
  | some (.db d) =>
    match d.properties with
    | some _ => .ok (some (.db d))
    | none => .ok (some (.db { d with properties := some ⟨bootstrapCols, []⟩ }))
  | some (.corrupt m) => .error m

/-- DropboxDatabaseSync.__init__ (app.py:32-53), given the DROPBOX_TOKEN
value and the outcome of the connection test.  Returns the initial state
and the number of remote calls made. -/
def initSync (token : String) (conn : ConnectOutcome) : SyncState × Nat :=
  if token = "" then
    (⟨false, "Not initialized", none⟩, 0)
  else
    match conn with
    | .ok => (⟨true, "Connected", none⟩, 1)
    | .fail msg => (⟨false, "Connection failed: " ++ msg, none⟩, 1)

/-- DropboxDatabaseSync.sync_database (app.py:55-101). -/
def sync_database (s : SyncState) (fs : FS) (env : SyncEnv) : SyncStep :=
  if s.enabled then
    match env.download with
    | .ok content =>
      match env.write with
      | .ok =>
        ⟨.returns true,
         { s with last_sync := some env.now,
                  sync_status := "Synced at " ++ env.now },
         some content, 1⟩
      | .openFail msg =>
        ⟨.returns false, { s with sync_status := "Sync error: " ++ msg }, fs, 1⟩
      | .truncated msg leftover =>
        ⟨.returns false, { s with sync_status := "Sync error: " ++ msg },
         some leftover, 1⟩
    | .apiError msg =>
      let s1 := { s with sync_status := "Dropbox API error: " ++ msg }
      if containsNotFound msg then
        match bootstrapDB fs with
        | .ok fs2 =>
          ⟨.returns false,
           { s1 with
             sync_status := "No database in Dropbox yet - using empty database" },
           fs2, 1⟩
        | .error m =>
          -- the CREATE TABLE runs inside the except-ApiError handler;
          -- an exception there is not caught by any enclosing handler
          ⟨.raises m, s1, fs, 1⟩
      else
        ⟨.returns false, s1, fs, 1⟩
    | .otherError msg =>
      ⟨.returns false, { s with sync_status := "Sync error: " ++ msg }, fs, 1⟩
  else
    ⟨.returns false, s, fs, 0⟩

/-- One accumulation step of SQLite MAX over the scrape_date column. -/
def maxStep (acc : Option String) (r : Row) : Option String :=
  match acc with
  | none => some r.scrape_date
  | some m => if strLt m r.scrape_date then some r.scrape_date else some m

/-- SELECT MAX(scrape_date) over a list of rows (SQLite MAX of a TEXT
column; NULL on an empty set). -/
def maxScrapeDate (rows : List Row) : Option String :=
  rows.foldl maxStep none

/-- DropboxDatabaseSync.get_last_update (app.py:103-116): the bare
except returns None on any query failure. -/
def get_last_update (fs : FS) : Option String :=
  match fs with
  | none => none
  | some (.corrupt _) => none
  | some (.db d) =>
    match d.properties with
    | none => none
    | some t => maxScrapeDate t.rows

/-- Operations that touch the sync component after construction. -/
inductive Op
  | syncOp (env : SyncEnv)
  | lastUpdateOp

/-- State transition of one operation: sync_database mutates state and
file; get_last_update only reads the file. -/
def applyOp (s : SyncState) (fs : FS) (op : Op) : SyncState × FS :=
  match op with
  | .syncOp env =>
    let st := sync_database s fs env
    (st.state, st.fs)
  | .lastUpdateOp => (s, fs)

/-! ### The /api/dashboard_stats handler -/

/-- WHERE scrape_date = (SELECT MAX(scrape_date) FROM properties):
the rows of the most recent snapshot. -/
def snapshotRows (rows : List Row) : List Row :=
  match maxScrapeDate rows with
  | none => []
  | some m => rows.filter (fun r => r.scrape_date = m)

/-- SQL COUNT(DISTINCT e): counts the distinct non-NULL values of the
expression over the rows. -/
def sqlCountDistinct (xs : List (Option String)) : Nat :=
  (xs.filterMap id).dedup.length

/-- SQL AVG over a nullable numeric expression: NULL when no non-NULL
value occurs, otherwise the mean of the non-NULL values. -/
def sqlAvg (xs : List (Option ℚ)) : Option ℚ :=
  let vs := xs.filterMap id
  if vs.length = 0 then none else some (vs.sum / (vs.length : ℚ))

/-- Python falsy coalescing row[5] or 'Never' (app.py:769): the default
is also taken when the value is the empty string. -/
def pyOrStr (v : Option String) (dflt : String) : String :=
  match v with
  | none => dflt
  | some s => if s = "" then dflt else s

/-- The JSON body built by dashboard_stats (app.py:763-770). -/
structure Stats where
  total_active : Nat
  new_today : Nat
  reduced_today : Nat
  avg_price : ℚ
  states : Nat
  last_scrape : String
deriving DecidableEq

/-- Payload of /api/dashboard_stats: either the stats object or an
object with a single error field. -/
inductive StatsResp
  | err (msg : String)
  | ok (s : Stats)
deriving DecidableEq

/-- The body of the try block of dashboard_stats (app.py:742-782): the
aggregate query over the most recent snapshot.  Raises (as .error) when
the file is not a database or the properties table is absent. -/
def statsQuery : DBFile → Except String Stats
  | .corrupt m => .error m
  | .db d =>
    match d.properties with
    | none => .error "no such table: properties"
    | some t =>
      let snap := snapshotRows t.rows
      .ok
        { total_active :=
            sqlCountDistinct (snap.map (fun r =>
              if r.status ≠ "Removed" then some r.case_number else none)),
          new_today :=
            sqlCountDistinct (snap.map (fun r =>
              if r.status = "New Inventory" then some r.case_number else none)),
          reduced_today :=
            sqlCountDistinct (snap.map (fun r =>
              if r.status = "Price Reduced" then some r.case_number else none)),
          avg_price :=
            (sqlAvg (snap.map (fun r =>
              if r.status ≠ "Removed" then r.price else none))).getD 0,
          states := (snap.map (fun r => r.state)).dedup.length,
          last_scrape := pyOrStr (maxScrapeDate snap) "Never" }

/-- The dashboard_stats handler (app.py:735-786): file-existence check,
then the query wrapped in the except-Exception boundary; always replies
with HTTP 200. -/
def dashboard_stats (fs : FS) : Nat × StatsResp :=
  match fs with
  | none => (200, .err "No database found")
  | some f =>
    match statsQuery f with
    | .ok st => (200, .ok st)
    | .error m => (200, .err m)

/-! ### The /api/properties handler -/

/-- One element of the JSON properties array (the SELECT list of the
query at app.py:797-819). -/
structure PropRow where
  case_number : String
  address : Option String
  state : String
  price : Option ℚ
  bedrooms : Option ℚ
  bathrooms : Option ℚ
  status : String
  days_on_market : Int
deriving DecidableEq

/-- LEFT JOIN property_analytics pa ON p.case_number = pa.case_number:
each properties row paired with its matching analytics rows, or with
none when no analytics row matches. -/
def joinedRows (rows : List Row) (pa : List AnalyticsRow) :
    List (Row × Option AnalyticsRow) :=
  rows.flatMap (fun p =>
    match pa.filter (fun a => a.case_number = p.case_number) with
    | [] => [(p, none)]
    | ms => ms.map (fun a => (p, some a)))

/-- The SELECT list: projection of a joined pair, including
CAST(CASE WHEN pa.total_days_on_market IS NOT NULL THEN ... ELSE 0 END
AS INTEGER). -/
def projectRow (x : Row × Option AnalyticsRow) : PropRow :=
  { case_number := x.1.case_number,
    address := x.1.address,
    state := x.1.state,
    price := x.1.price,
    bedrooms := x.1.bedrooms,
    bathrooms := x.1.bathrooms,
    status := x.1.status,
    days_on_market :=
      match x.2 with
      | some a =>
        match a.total_days_on_market with
        | some n => n
        | none => 0
      | none => 0 }

/-- NULLS-first comparison of the nullable price column (SQLite ORDER
BY ... ASC). -/
def priceLe : Option ℚ → Option ℚ → Bool
  | none, _ => true
  | some _, none => false
  | some x, some y => decide (x ≤ y)

/-- ORDER BY p.state, p.price: lexicographic key comparison on the
projected rows. -/
def keyLe (a b : PropRow) : Bool :=
  strLt a.state b.state ||
    (decide (a.state = b.state) && priceLe a.price b.price)

/-- ORDER BY p.state, p.price as a relation on projected rows. -/
def keyRel (a b : PropRow) : Prop := keyLe a b = true

instance : DecidableRel keyRel :=
  fun a b => inferInstanceAs (Decidable (keyLe a b = true))

/-- The page limit of the query (LIMIT 1000, app.py:818). -/
def pageLimit : Nat := 1000

/-- The body of the try block of get_properties: the SELECT DISTINCT
... WHERE ... ORDER BY ... LIMIT query (app.py:797-826).  Raises (as
.error) when the file is not a database or a referenced table is
absent. -/
def propsQuery : DBFile → Except String (List PropRow)
  | .corrupt m => .error m
  | .db d =>
    match d.properties with
    | none => .error "no such table: properties"
    | some t =>
      match d.property_analytics with
      | none => .error "no such table: property_analytics"
      | some pa =>
        let filtered := (joinedRows t.rows pa).filter (fun x =>
          decide (maxScrapeDate t.rows = some x.1.scrape_date) &&
            decide (x.1.status ≠ "Removed"))
        .ok ((((filtered.map projectRow).dedup).insertionSort keyRel).take pageLimit)

/-- Payload of /api/properties: the array plus the optional error
field. -/
structure PropsResp where
  properties : List PropRow
  error : Option String
deriving DecidableEq

/-- The get_properties handler (app.py:788-835): file-existence check,
query wrapped in the except-Exception boundary; always HTTP 200. -/
def get_properties (fs : FS) : Nat × PropsResp :=
  match fs with
  | none => (200, ⟨[], none⟩)
  | some f =>
    match propsQuery f with
    | .ok l => (200, ⟨l, none⟩)
    | .error m => (200, ⟨[], some m⟩)

/-! ### The /api/force_sync handler -/

/-- JSON body of /api/force_sync (app.py:841-845); the timestamp field
(wall clock at response time) is not modelled. -/
structure ForceSyncResp where
  success : Bool
  status : String
deriving DecidableEq

/-- The force_sync handler (app.py:837-845): calls sync_database
synchronously; if sync_database raises, the handler has no boundary of
its own and the response is never produced (modelled as none). -/
def force_sync (s : SyncState) (fs : FS) (env : SyncEnv) :
    SyncStep × Option (Nat × ForceSyncResp) :=
  let st := sync_database s fs env
  match st.result with
  | .returns b => (st, some (200, ⟨b, st.state.sync_status⟩))
  | .raises _ => (st, none)

/-! ### Basic properties of the embedded TEXT order -/

theorem strLtL_irrefl : ∀ x : List Char, strLtL x x = false := by
  intro x
  induction x with
  | nil => rfl
  | cons a as ih => simp [strLtL, ih]

theorem strLtL_trans : ∀ x y z : List Char,
    strLtL x y = true → strLtL y z = true → strLtL x z = true := by
  intro x
  induction x with
  | nil =>
    intro y z hxy hyz
    cases y with
    | nil => simp [strLtL] at hxy
    | cons b bs =>
      cases z with
      | nil => simp [strLtL] at hyz
      | cons c cs => simp [strLtL]
  | cons a as ih =>
    intro y z hxy hyz
    cases y with
    | nil => simp [strLtL] at hxy
    | cons b bs =>
      cases z with
      | nil => simp [strLtL] at hyz
      | cons c cs =>
        simp only [strLtL, Bool.or_eq_true, Bool.and_eq_true, decide_eq_true_eq,
          beq_iff_eq] at hxy hyz ⊢
        rcases hxy with h1 | ⟨hab, h2⟩
        · rcases hyz with h3 | ⟨hbc, h4⟩
          · exact Or.inl (lt_trans h1 h3)
          · exact Or.inl (hbc ▸ h1)
        · rcases hyz with h3 | ⟨hbc, h4⟩
          · exact Or.inl (hab ▸ h3)
          · exact Or.inr ⟨hab.trans hbc, ih bs cs h2 h4⟩

theorem strLtL_connex : ∀ x y : List Char,
    strLtL x y = true ∨ x = y ∨ strLtL y x = true := by
  intro x
  induction x with
  | nil =>
    intro y
    cases y with
    | nil => exact Or.inr (Or.inl rfl)
    | cons b bs => exact Or.inl (by simp [strLtL])
  | cons a as ih =>
    intro y
    cases y with
    | nil => exact Or.inr (Or.inr (by simp [strLtL]))
    | cons b bs =>
      rcases lt_trichotomy a b with h | h | h
      · exact Or.inl (by simp [strLtL, h])
      · subst h
        rcases ih bs with h2 | h2 | h2
        · exact Or.inl (by simp [strLtL, h2])
        · exact Or.inr (Or.inl (by rw [h2]))
        · exact Or.inr (Or.inr (by simp [strLtL, h2]))
      · exact Or.inr (Or.inr (by simp [strLtL, h]))

theorem strLt_trans {a b c : String} :
    strLt a b = true → strLt b c = true → strLt a c = true :=
  strLtL_trans a.data b.data c.data

theorem strLt_connex (a b : String) :
    strLt a b = true ∨ a = b ∨ strLt b a = true := by
  rcases strLtL_connex a.data b.data with h | h | h
  · exact Or.inl h
  · exact Or.inr (Or.inl (String.ext h))
  · exact Or.inr (Or.inr h)

theorem strLt_irrefl (a : String) : strLt a a = false :=
  strLtL_irrefl a.data

theorem priceLe_total (a b : Option ℚ) :
    priceLe a b = true ∨ priceLe b a = true := by
  cases a with
  | none => exact Or.inl rfl
  | some x =>
    cases b with
    | none => exact Or.inr rfl
    | some y =>
      rcases le_total x y with h | h
      · exact Or.inl (by simp [priceLe, h])
      · exact Or.inr (by simp [priceLe, h])

theorem priceLe_trans {a b c : Option ℚ} :
    priceLe a b = true → priceLe b c = true → priceLe a c = true := by
  cases a with
  | none => intro _ _; rfl
  | some x =>
    cases b with
    | none => intro h; simp [priceLe] at h
    | some y =>
      cases c with
      | none => intro _ h; simp [priceLe] at h
      | some z =>
        simp only [priceLe, decide_eq_true_eq]
        exact le_trans

theorem keyLe_total (a b : PropRow) : keyLe a b = true ∨ keyLe b a = true := by
  unfold keyLe
  rcases strLt_connex a.state b.state with h | h | h
  · exact Or.inl (by simp [h])
  · rcases priceLe_total a.price b.price with hp | hp
    · exact Or.inl (by simp [h, hp])
    · exact Or.inr (by simp [h.symm, hp])
  · exact Or.inr (by simp [h])

theorem keyLe_trans {a b c : PropRow} :
    keyLe a b = true → keyLe b c = true → keyLe a c = true := by
  unfold keyLe
  intro h1 h2
  simp only [Bool.or_eq_true, Bool.and_eq_true, decide_eq_true_eq] at h1 h2 ⊢
  rcases h1 with h1 | ⟨e1, p1⟩
  · rcases h2 with h2 | ⟨e2, p2⟩
    · exact Or.inl (strLt_trans h1 h2)
    · exact Or.inl (e2 ▸ h1)
  · rcases h2 with h2 | ⟨e2, p2⟩
    · exact Or.inl (e1 ▸ h2)
    · exact Or.inr ⟨e1.trans e2, priceLe_trans p1 p2⟩

instance : IsTotal PropRow keyRel := ⟨keyLe_total⟩

instance : IsTrans PropRow keyRel := ⟨fun _ _ _ => keyLe_trans⟩

/-! ### Properties of SQL MAX(scrape_date) and the snapshot filter -/

theorem maxStep_some (m : String) (r : Row) :
    maxStep (some m) r =
      some (if strLt m r.scrape_date then r.scrape_date else m) := by
  by_cases h : strLt m r.scrape_date = true <;> simp [maxStep, h]

theorem foldl_maxStep_some (rows : List Row) :
    ∀ m : String, ∃ k, rows.foldl maxStep (some m) = some k := by
  induction rows with
  | nil => intro m; exact ⟨m, rfl⟩
  | cons r rs ih =>
    intro m
    show ∃ k, rs.foldl maxStep (maxStep (some m) r) = some k
    rw [maxStep_some]
    exact ih _

theorem maxScrapeDate_ne_none {rows : List Row} (h : rows ≠ []) :
    ∃ m, maxScrapeDate rows = some m := by
  cases rows with
  | nil => exact absurd rfl h
  | cons r rs =>
    show ∃ m, rs.foldl maxStep (maxStep none r) = some m
    exact foldl_maxStep_some rs r.scrape_date

theorem foldl_maxStep_mem (rows : List Row) :
    ∀ (acc : Option String) (m : String), rows.foldl maxStep acc = some m →
      acc = some m ∨ ∃ r ∈ rows, r.scrape_date = m := by
  induction rows with
  | nil => intro acc m h; exact Or.inl h
  | cons r rs ih =>
    intro acc m h
    have h' : rs.foldl maxStep (maxStep acc r) = some m := h
    rcases ih (maxStep acc r) m h' with hstep | ⟨r', hr', he⟩
    · cases acc with
      | none =>
        refine Or.inr ⟨r, List.mem_cons_self r rs, ?_⟩
        simpa [maxStep] using hstep
      | some x =>
        rw [maxStep_some] at hstep
        have hx := Option.some.inj hstep
        by_cases hlt : strLt x r.scrape_date = true
        · rw [if_pos hlt] at hx
          exact Or.inr ⟨r, List.mem_cons_self r rs, hx⟩
        · rw [if_neg hlt] at hx
          exact Or.inl (by rw [hx])
    · exact Or.inr ⟨r', List.mem_cons_of_mem r hr', he⟩

theorem maxScrapeDate_mem {rows : List Row} {m : String}
    (h : maxScrapeDate rows = some m) : ∃ r ∈ rows, r.scrape_date = m := by
  rcases foldl_maxStep_mem rows none m h with h' | h'
  · exact absurd h' (by simp)
  · exact h'

theorem foldl_maxStep_const (rows : List Row) (m : String)
    (hall : ∀ r ∈ rows, r.scrape_date = m) :
    rows.foldl maxStep (some m) = some m := by
  induction rows with
  | nil => rfl
  | cons r rs ih =>
    have hr : r.scrape_date = m := hall r (List.mem_cons_self r rs)
    show rs.foldl maxStep (maxStep (some m) r) = some m
    have hstep : maxStep (some m) r = some m := by
      simp [maxStep_some, hr]
    rw [hstep]
    exact ih (fun r' hr' => hall r' (List.mem_cons_of_mem r hr'))

theorem maxScrapeDate_of_const {rows : List Row} {m : String} (hne : rows ≠ [])
    (hall : ∀ r ∈ rows, r.scrape_date = m) : maxScrapeDate rows = some m := by
  cases rows with
  | nil => exact absurd rfl hne
  | cons r rs =>
    have hr : r.scrape_date = m := hall r (List.mem_cons_self r rs)
    show rs.foldl maxStep (maxStep none r) = some m
    have : maxStep none r = some m := by rw [maxStep, hr]
    rw [this]
    exact foldl_maxStep_const rs m (fun r' hr' => hall r' (List.mem_cons_of_mem r hr'))

/-- The snapshot has the same MAX(scrape_date) as the whole table:
row[5] of the aggregate query equals the table maximum. -/
theorem maxScrapeDate_snapshot (rows : List Row) :
    maxScrapeDate (snapshotRows rows) = maxScrapeDate rows := by
  cases rows with
  | nil => rfl
  | cons r rs =>
    obtain ⟨m, hm⟩ := maxScrapeDate_ne_none (show r :: rs ≠ [] by simp)
    rw [hm]
    unfold snapshotRows
    rw [hm]
    obtain ⟨r', hr', he⟩ := maxScrapeDate_mem hm
    apply maxScrapeDate_of_const
    · exact List.ne_nil_of_mem (List.mem_filter.mpr ⟨hr', by simp [he]⟩)
    · intro x hx
      exact of_decide_eq_true (List.mem_filter.mp hx).2

/-! ### SQL expression rewrites used for the statistics query -/

theorem mapIf_filterMap {α : Type} (l : List Row) (p : Row → Prop)
    [DecidablePred p] (f : Row → α) :
    ((l.map (fun r => if p r then some (f r) else none)).filterMap id) =
      (l.filter (fun r => decide (p r))).map f := by
  induction l with
  | nil => rfl
  | cons a l ih =>
    by_cases h : p a <;> simp [h, ih]

theorem mapIfOpt_filterMap (l : List Row) (p : Row → Prop)
    [DecidablePred p] (g : Row → Option ℚ) :
    ((l.map (fun r => if p r then g r else none)).filterMap id) =
      (l.filter (fun r => decide (p r))).filterMap g := by
  induction l with
  | nil => rfl
  | cons a l ih =>
    by_cases h : p a
    · cases hga : g a <;> simp [h, hga, ih, List.filterMap_cons]
    · simp [h, ih]

/-! ### Spec-side formulations of the statistics (written from the spec
text, to be compared with the embedded query) -/

/-- Spec: count of distinct case numbers where status is not Removed,
over the most recent snapshot. -/
def spec_total_active (rows : List Row) : Nat :=
  (((snapshotRows rows).filter (fun r => decide (r.status ≠ "Removed"))).map
    (fun r => r.case_number)).dedup.length

/-- Spec: count of distinct case numbers where status is New Inventory,
over the most recent snapshot. -/
def spec_new_today (rows : List Row) : Nat :=
  (((snapshotRows rows).filter (fun r => decide (r.status = "New Inventory"))).map
    (fun r => r.case_number)).dedup.length

/-- Spec: count of distinct case numbers where status is Price Reduced,
over the most recent snapshot. -/
def spec_reduced_today (rows : List Row) : Nat :=
  (((snapshotRows rows).filter (fun r => decide (r.status = "Price Reduced"))).map
    (fun r => r.case_number)).dedup.length

/-- Spec: arithmetic mean of price over the non-Removed snapshot rows,
nulls excluded; zero when no qualifying value exists. -/
def spec_avg_price (rows : List Row) : ℚ :=
  let ps := ((snapshotRows rows).filter (fun r => decide (r.status ≠ "Removed"))).filterMap
    (fun r => r.price)
  if ps.length = 0 then 0 else ps.sum / (ps.length : ℚ)

/-- Spec: count of distinct state values across the snapshot. -/
def spec_states (rows : List Row) : Nat :=
  ((snapshotRows rows).map (fun r => r.state)).dedup.length

/-- Spec, amended: the table's max scrape_date, with the literal string
Never when no rows exist — and also, because the handler coalesces with
a Python falsy test, when the max scrape_date is the empty string. -/
def spec_last_scrape (rows : List Row) : String :=
  match maxScrapeDate rows with
  | none => "Never"
  | some m => if m = "" then "Never" else m

theorem getD_ite_avg {c : Prop} [Decidable c] (x : ℚ) :
    (if c then (none : Option ℚ) else some x).getD 0 = if c then 0 else x := by
  split <;> rfl

/-! ### Concrete fixtures used by witnesses and counterexamples -/

def wRow1 : Row := ⟨"A", "2024-01-02", "GA", none, none, none, none, "New Inventory"⟩

def wRow2 : Row := ⟨"B", "2024-01-02", "FL", none, none, none, none, "Removed"⟩

def wRow3 : Row := ⟨"C", "2024-01-01", "GA", none, none, none, none, "Existing"⟩

def wRow4 : Row := ⟨"D", "2024-01-02", "FL", none, none, none, none, "Existing"⟩

def wTable : Table := ⟨bootstrapCols, [wRow1, wRow2, wRow3, wRow4]⟩

def wDB : DB := ⟨some wTable, some [⟨"A", some 7⟩]⟩

def cRowE : Row := ⟨"A", "", "GA", none, none, none, none, "Existing"⟩

def cDBE : DB := ⟨some ⟨bootstrapCols, [cRowE]⟩, some []⟩

def c2s : SyncState := ⟨true, "Connected", none⟩

def c2fsBefore : FS := some (.db wDB)

def c2env : SyncEnv :=
  ⟨.ok (.db wDB), .truncated "No space left on device" (.corrupt "db truncated"),
   "2024-01-02 10:00:00"⟩

/-! ### Claims -/

/-- Claim C1: the claim states that no exception ever propagates past
sync_database, including failures while bootstrapping the empty
database in the missing-remote-file branch.  The code contradicts this
intent: the CREATE TABLE bootstrap runs inside the except-ApiError
handler, so a sqlite failure there (local file exists but is not a
SQLite database, e.g. a partially written prior download) propagates
out of sync_database, and the force_sync handler then produces no
response.  This theorem evaluates the code at that failing input. -/
theorem c1_sync_bootstrap_failure_raises :
    (sync_database ⟨true, "Connected", none⟩
        (some (.corrupt "file is not a database"))
        ⟨.apiError "ApiError(path/not_found)", .ok, "2024-01-02 10:00:00"⟩).result =
      .raises "file is not a database" ∧
    (force_sync ⟨true, "Connected", none⟩
        (some (.corrupt "file is not a database"))
        ⟨.apiError "ApiError(path/not_found)", .ok, "2024-01-02 10:00:00"⟩).2 = none := by
  decide

/-- Claim C2 counterexample: a failure other than remote-file-missing
(an I/O error during the local write, after open has truncated the
file) returns failure and sets a Sync error status, yet the local
database file afterwards differs from its contents before the
invocation, refuting the claimed frame property as stated. -/
theorem c2_counterexample :
    (sync_database c2s c2fsBefore c2env).result = .returns false ∧
    (sync_database c2s c2fsBefore c2env).state.sync_status =
      "Sync error: No space left on device" ∧
    (sync_database c2s c2fsBefore c2env).fs ≠ c2fsBefore := by
  decide

/-- Is this sync environment a failure other than the
remote-file-missing condition? -/
def otherFailure (env : SyncEnv) : Bool :=
  match env.download with
  | .apiError m => !containsNotFound m
  | .otherError _ => true
  | .ok _ =>
    match env.write with
    | .ok => false
    | .openFail _ => true
    | .truncated _ _ => true

/-- Claim C2, amended: on any failure other than remote-file-missing,
sync_database returns false and the status becomes Dropbox API error or
Sync error with the message; the local database file is left unmodified,
except when the failure is an I/O error during the local write itself,
in which case the file holds the truncated/partially written bytes. -/
theorem c2_other_failure_frame :
    ∀ (s : SyncState) (fs : FS) (env : SyncEnv), s.enabled = true →
      otherFailure env = true →
      (sync_database s fs env).result = .returns false ∧
      (∃ m, (sync_database s fs env).state.sync_status = "Dropbox API error: " ++ m ∨
            (sync_database s fs env).state.sync_status = "Sync error: " ++ m) ∧
      ((sync_database s fs env).fs = fs ∨
        ∃ c m leftover, env.download = .ok c ∧ env.write = .truncated m leftover ∧
          (sync_database s fs env).fs = some leftover) := by
  intro s fs env hen hof
  obtain ⟨en, st, ls⟩ := s
  cases hen
  obtain ⟨dl, wr, now⟩ := env
  cases dl with
  | ok c =>
    cases wr with
    | ok => simp [otherFailure] at hof
    | openFail m => exact ⟨rfl, ⟨m, Or.inr rfl⟩, Or.inl rfl⟩
    | truncated m leftover =>
      exact ⟨rfl, ⟨m, Or.inr rfl⟩, Or.inr ⟨c, m, leftover, rfl, rfl, rfl⟩⟩
  | apiError m =>
    have hnf : containsNotFound m = false := by
      simpa [otherFailure] using hof
    refine ⟨?_, ⟨m, Or.inl ?_⟩, Or.inl ?_⟩ <;>
      simp [sync_database, hnf]
  | otherError m => exact ⟨rfl, ⟨m, Or.inr rfl⟩, Or.inl rfl⟩

/-- Witness for the amended C2 theorem at a concrete generic API
failure. -/
theorem c2_other_failure_frame_witness :
    (sync_database c2s c2fsBefore ⟨.otherError "Connection timed out", .ok, "t"⟩).result =
        .returns false ∧
    (∃ m, (sync_database c2s c2fsBefore ⟨.otherError "Connection timed out", .ok, "t"⟩).state.sync_status =
            "Dropbox API error: " ++ m ∨
          (sync_database c2s c2fsBefore ⟨.otherError "Connection timed out", .ok, "t"⟩).state.sync_status =
            "Sync error: " ++ m) ∧
    ((sync_database c2s c2fsBefore ⟨.otherError "Connection timed out", .ok, "t"⟩).fs = c2fsBefore ∨
      ∃ c m leftover,
        (⟨.otherError "Connection timed out", .ok, "t"⟩ : SyncEnv).download = .ok c ∧
        (⟨.otherError "Connection timed out", .ok, "t"⟩ : SyncEnv).write = .truncated m leftover ∧
        (sync_database c2s c2fsBefore ⟨.otherError "Connection timed out", .ok, "t"⟩).fs = some leftover) :=
  c2_other_failure_frame c2s c2fsBefore ⟨.otherError "Connection timed out", .ok, "t"⟩
    (by decide) (by decide)

/-- Claim C3 counterexample: a database whose only snapshot date is the
empty string has rows, and its maximum scrape_date is the empty string,
yet dashboard_stats reports last_scrape as Never (Python falsy
coalescing), refuting the claim as stated. -/
theorem c3_counterexample :
    (dashboard_stats (some (.db cDBE))).2 = .ok ⟨1, 0, 0, 0, 1, "Never"⟩ ∧
    maxScrapeDate [cRowE] = some "" ∧
    ([cRowE] ≠ ([] : List Row)) ∧ ("Never" : String) ≠ "" := by
  decide

/-- Claim C3, amended: over any database whose properties table exists,
dashboard_stats evaluates its aggregates only over the rows of the
maximum scrape_date and returns exactly the spec formulas: distinct
non-Removed case count, distinct New Inventory case count, distinct
Price Reduced case count, null-excluded mean price over non-Removed
rows (zero if none qualify), distinct state count, and the max
scrape_date — with Never when no rows exist or when the max scrape_date
is the empty string. -/
theorem c3_stats_formulas (d : DB) (t : Table) (h : d.properties = some t) :
    (dashboard_stats (some (.db d))).2 =
      .ok ⟨spec_total_active t.rows, spec_new_today t.rows,
           spec_reduced_today t.rows, spec_avg_price t.rows,
           spec_states t.rows, spec_last_scrape t.rows⟩ := by
  simp only [dashboard_stats, statsQuery, h]
  refine congrArg StatsResp.ok ?_
  simp only [Stats.mk.injEq]
  refine ⟨?_, ?_, ?_, ?_, ?_, ?_⟩
  · unfold sqlCountDistinct spec_total_active
    rw [mapIf_filterMap]
  · unfold sqlCountDistinct spec_new_today
    rw [mapIf_filterMap]
  · unfold sqlCountDistinct spec_reduced_today
    rw [mapIf_filterMap]
  · unfold sqlAvg spec_avg_price
    rw [mapIfOpt_filterMap]
    exact getD_ite_avg _
  · rfl
  · rw [show pyOrStr (maxScrapeDate (snapshotRows t.rows)) "Never" =
        pyOrStr (maxScrapeDate t.rows) "Never" from by rw [maxScrapeDate_snapshot]]
    cases hm : maxScrapeDate t.rows <;> simp [pyOrStr, spec_last_scrape, hm]

/-- Witness for the amended C3 theorem on a concrete seeded database. -/
theorem c3_stats_formulas_witness :
    (dashboard_stats (some (.db wDB))).2 =
      .ok ⟨spec_total_active wTable.rows, spec_new_today wTable.rows,
           spec_reduced_today wTable.rows, spec_avg_price wTable.rows,
           spec_states wTable.rows, spec_last_scrape wTable.rows⟩ ∧
    spec_total_active wTable.rows = 2 ∧ spec_new_today wTable.rows = 1 ∧
    spec_states wTable.rows = 2 ∧ spec_last_scrape wTable.rows = "2024-01-02" :=
  ⟨c3_stats_formulas wDB wTable rfl, by decide, by decide, by decide, by decide⟩

/-- Every element of the LEFT JOIN comes from a properties row. -/
theorem mem_joinedRows {rows : List Row} {pa : List AnalyticsRow}
    {x : Row × Option AnalyticsRow} (hx : x ∈ joinedRows rows pa) :
    x.1 ∈ rows := by
  unfold joinedRows at hx
  rw [List.mem_flatMap] at hx
  obtain ⟨p, hp, hx⟩ := hx
  have hxp : x.1 = p := by
    cases hfil : pa.filter (fun a => a.case_number = p.case_number) with
    | nil =>
      rw [hfil] at hx
      simp only [List.mem_singleton] at hx
      rw [hx]
    | cons a as =>
      rw [hfil] at hx
      rw [List.mem_map] at hx
      obtain ⟨a2, _, ha2⟩ := hx
      rw [← ha2]
  rw [hxp]
  exact hp

/-- Claim C4: every row returned by the /api/properties handler has a
status different from Removed, and arises (by the SELECT projection)
from a properties-table row whose scrape_date equals the table's
maximum scrape_date. -/
theorem c4_properties_filtered :
    ∀ (fs : FS) (r : PropRow), r ∈ (get_properties fs).2.properties →
      r.status ≠ "Removed" ∧
      ∃ d t x, fs = some (.db d) ∧ d.properties = some t ∧
        x.1 ∈ t.rows ∧ projectRow x = r ∧
        maxScrapeDate t.rows = some x.1.scrape_date ∧
        x.1.status ≠ "Removed" := by
  intro fs r hr
  cases fs with
  | none => simp [get_properties] at hr
  | some f =>
    cases f with
    | corrupt m => simp [get_properties, propsQuery] at hr
    | db d =>
      cases hp : d.properties with
      | none => simp [get_properties, propsQuery, hp] at hr
      | some t =>
        cases hpa : d.property_analytics with
        | none => simp [get_properties, propsQuery, hp, hpa] at hr
        | some pa =>
          simp only [get_properties, propsQuery, hp, hpa] at hr
          have h1 := (List.take_sublist pageLimit _).subset hr
          have h2 := (List.perm_insertionSort keyRel _).subset h1
          have h3 := (List.dedup_sublist _).subset h2
          rw [List.mem_map] at h3
          obtain ⟨x, hxf, hxr⟩ := h3
          rw [List.mem_filter] at hxf
          obtain ⟨hxj, hpred⟩ := hxf
          rw [Bool.and_eq_true, decide_eq_true_eq, decide_eq_true_eq] at hpred
          refine ⟨?_, d, t, x, rfl, hp, mem_joinedRows hxj, hxr, hpred.1, hpred.2⟩
          rw [← hxr]
          exact hpred.2

/-- Witness for C4 at a concrete database. -/
theorem c4_properties_filtered_witness :
    (⟨"D", none, "FL", none, none, none, "Existing", 0⟩ : PropRow).status ≠ "Removed" ∧
    ∃ d t x, (some (.db wDB) : FS) = some (.db d) ∧ d.properties = some t ∧
      x.1 ∈ t.rows ∧
      projectRow x = (⟨"D", none, "FL", none, none, none, "Existing", 0⟩ : PropRow) ∧
      maxScrapeDate t.rows = some x.1.scrape_date ∧ x.1.status ≠ "Removed" :=
  c4_properties_filtered (some (.db wDB))
    ⟨"D", none, "FL", none, none, none, "Existing", 0⟩ (by decide)

/-- Claim C5: the rows returned by /api/properties are sorted by state
ascending then price ascending (NULL prices first, as SQLite orders
them), and never more than the page limit of 1000 are returned. -/
theorem c5_properties_sorted_and_limited :
    ∀ fs : FS,
      List.Sorted (fun a b : PropRow =>
        strLt a.state b.state = true ∨
          (a.state = b.state ∧ priceLe a.price b.price = true))
        (get_properties fs).2.properties ∧
      (get_properties fs).2.properties.length ≤ pageLimit := by
  have hconv : ∀ l : List PropRow, List.Sorted keyRel l →
      List.Sorted (fun a b : PropRow =>
        strLt a.state b.state = true ∨
          (a.state = b.state ∧ priceLe a.price b.price = true)) l := by
    intro l hl
    refine hl.imp ?_
    intro a b hab
    unfold keyRel keyLe at hab
    rw [Bool.or_eq_true, Bool.and_eq_true, decide_eq_true_eq] at hab
    exact hab
  intro fs
  cases fs with
  | none =>
    exact ⟨hconv _ List.sorted_nil, Nat.zero_le _⟩
  | some f =>
    cases f with
    | corrupt m => exact ⟨hconv _ List.sorted_nil, Nat.zero_le _⟩
    | db d =>
      cases hp : d.properties with
      | none =>
        simp only [get_properties, propsQuery, hp]
        exact ⟨hconv _ List.sorted_nil, Nat.zero_le _⟩
      | some t =>
        cases hpa : d.property_analytics with
        | none =>
          simp only [get_properties, propsQuery, hp, hpa]
          exact ⟨hconv _ List.sorted_nil, Nat.zero_le _⟩
        | some pa =>
          simp only [get_properties, propsQuery, hp, hpa]
          constructor
          · exact hconv _
              (List.Pairwise.sublist (List.take_sublist _ _)
                (List.sorted_insertionSort keyRel _))
          · exact List.length_take_le _ _

/-- Claim C6: the two read handlers always reply with HTTP 200; a
missing local database file yields the documented payloads, and any
query failure yields a payload carrying the error message. -/
theorem c6_read_handlers_degrade :
    ∀ fs : FS,
      (dashboard_stats fs).1 = 200 ∧ (get_properties fs).1 = 200 ∧
      (fs = none → (dashboard_stats fs).2 = .err "No database found" ∧
        (get_properties fs).2 = ⟨[], none⟩) ∧
      (∀ f m, fs = some f → statsQuery f = .error m →
        (dashboard_stats fs).2 = .err m) ∧
      (∀ f m, fs = some f → propsQuery f = .error m →
        (get_properties fs).2 = ⟨[], some m⟩) := by
  intro fs
  cases fs with
  | none =>
    exact ⟨rfl, rfl, fun _ => ⟨rfl, rfl⟩,
      fun f m h => Option.noConfusion h, fun f m h => Option.noConfusion h⟩
  | some f =>
    refine ⟨?_, ?_, fun h => Option.noConfusion h, ?_, ?_⟩
    · cases hq : statsQuery f <;> simp [dashboard_stats, hq]
    · cases hq : propsQuery f <;> simp [get_properties, hq]
    · intro f2 m hf hq
      obtain rfl : f2 = f := (Option.some.inj hf).symm
      simp [dashboard_stats, hq]
    · intro f2 m hf hq
      obtain rfl : f2 = f := (Option.some.inj hf).symm
      simp [get_properties, hq]

/-- Witness for C6: the absent-file payloads and a corrupt-file query
failure. -/
theorem c6_read_handlers_degrade_witness :
    (dashboard_stats none).2 = .err "No database found" ∧
    (get_properties none).2 = ⟨[], none⟩ ∧
    (dashboard_stats (some (.corrupt "disk I/O error"))).2 = .err "disk I/O error" ∧
    (get_properties (some (.corrupt "disk I/O error"))).2 = ⟨[], some "disk I/O error"⟩ :=
  ⟨((c6_read_handlers_degrade none).2.2.1 rfl).1,
   ((c6_read_handlers_degrade none).2.2.1 rfl).2,
   (c6_read_handlers_degrade (some (.corrupt "disk I/O error"))).2.2.2.1
     (.corrupt "disk I/O error") "disk I/O error" rfl rfl,
   (c6_read_handlers_degrade (some (.corrupt "disk I/O error"))).2.2.2.2
     (.corrupt "disk I/O error") "disk I/O error" rfl rfl⟩

/-- Claim C7: constructing the sync component with no credential makes
it disabled with status Not initialized and performs no remote call;
invoking Sync on any disabled component returns false, changes neither
the component state nor the local file, and makes no remote call; and
no operation ever changes the enabled flag, so the component stays
disabled forever. -/
theorem c7_no_token_disabled :
    (∀ conn, initSync "" conn = (⟨false, "Not initialized", none⟩, 0)) ∧
    (∀ (s : SyncState) (fs : FS) (env : SyncEnv), s.enabled = false →
      sync_database s fs env = ⟨.returns false, s, fs, 0⟩) ∧
    (∀ (s : SyncState) (fs : FS) (op : Op),
      (applyOp s fs op).1.enabled = s.enabled) := by
  refine ⟨fun conn => rfl, ?_, ?_⟩
  · intro s fs env hen
    obtain ⟨en, st, ls⟩ := s
    cases hen
    rfl
  · intro s fs op
    cases op with
    | lastUpdateOp => rfl
    | syncOp env =>
      show (sync_database s fs env).state.enabled = s.enabled
      obtain ⟨en, st, ls⟩ := s
      cases en
      · rfl
      · obtain ⟨dl, wr, now⟩ := env
        cases dl with
        | ok c => cases wr <;> rfl
        | apiError m =>
          cases hnf : containsNotFound m with
          | false => simp [sync_database, hnf]
          | true => cases hb : bootstrapDB fs <;> simp [sync_database, hnf, hb]
        | otherError m => rfl

/-- Witness for C7: the disabled component built from an empty token,
and a sync invocation on it. -/
theorem c7_no_token_disabled_witness :
    initSync "" .ok = (⟨false, "Not initialized", none⟩, 0) ∧
    sync_database ⟨false, "Not initialized", none⟩ none ⟨.ok (.db wDB), .ok, "t"⟩ =
      ⟨.returns false, ⟨false, "Not initialized", none⟩, none, 0⟩ ∧
    (applyOp ⟨false, "Not initialized", none⟩ none
      (.syncOp ⟨.ok (.db wDB), .ok, "t"⟩)).1.enabled = false :=
  ⟨c7_no_token_disabled.1 .ok,
   c7_no_token_disabled.2.1 ⟨false, "Not initialized", none⟩ none
     ⟨.ok (.db wDB), .ok, "t"⟩ rfl,
   c7_no_token_disabled.2.2 ⟨false, "Not initialized", none⟩ none
     (.syncOp ⟨.ok (.db wDB), .ok, "t"⟩)⟩

/-- Is the local file present but not a valid SQLite database? -/
def isCorruptFile : FS → Bool
  | some (.corrupt _) => true
  | _ => false

/-- Does the local file already contain a properties table? -/
def hasPropsTable : FS → Bool
  | some (.db d) => d.properties.isSome
  | _ => false

/-- Claim C8 counterexample: on an enabled component with the remote
file missing but the local file present and not a valid SQLite
database (e.g. a partial prior download), sync_database raises out of
the bootstrap instead of returning: no properties table is created,
the file is unchanged, and the status is left at the Dropbox API error
message rather than the no-database-yet message, refuting the claim as
stated. -/
theorem c8_counterexample :
    (sync_database ⟨true, "Synced at 2024-01-01 09:00:00", some "2024-01-01 09:00:00"⟩
        (some (.corrupt "database disk image is malformed"))
        ⟨.apiError "ApiError(path/not_found, GetMetadataError)", .ok,
         "2024-01-02 10:00:00"⟩).result =
      .raises "database disk image is malformed" ∧
    (sync_database ⟨true, "Synced at 2024-01-01 09:00:00", some "2024-01-01 09:00:00"⟩
        (some (.corrupt "database disk image is malformed"))
        ⟨.apiError "ApiError(path/not_found, GetMetadataError)", .ok,
         "2024-01-02 10:00:00"⟩).fs =
      some (.corrupt "database disk image is malformed") ∧
    (sync_database ⟨true, "Synced at 2024-01-01 09:00:00", some "2024-01-01 09:00:00"⟩
        (some (.corrupt "database disk image is malformed"))
        ⟨.apiError "ApiError(path/not_found, GetMetadataError)", .ok,
         "2024-01-02 10:00:00"⟩).state.sync_status =
      "Dropbox API error: ApiError(path/not_found, GetMetadataError)" ∧
    (sync_database ⟨true, "Synced at 2024-01-01 09:00:00", some "2024-01-01 09:00:00"⟩
        (some (.corrupt "database disk image is malformed"))
        ⟨.apiError "ApiError(path/not_found, GetMetadataError)", .ok,
         "2024-01-02 10:00:00"⟩).state.sync_status ≠
      "No database in Dropbox yet - using empty database" := by
  decide

/-- Claim C8, amended: on an enabled component, when the download fails
with the remote-file-missing ApiError and the local file, if present,
is a valid SQLite database (so the bootstrap's CREATE TABLE does not
raise — the corrupt-file case is the C1 bug), sync_database leaves a
local database whose properties table exists — created with exactly the
six bootstrap columns and no rows when it did not already exist — and
sets the no-database-yet status message. -/
theorem c8_missing_remote_bootstraps :
    ∀ (s : SyncState) (fs : FS) (env : SyncEnv) (m : String),
      s.enabled = true → env.download = .apiError m →
      containsNotFound m = true → isCorruptFile fs = false →
      ∃ d t, (sync_database s fs env).fs = some (.db d) ∧
        d.properties = some t ∧
        (hasPropsTable fs = false → t = ⟨bootstrapCols, []⟩) ∧
        (sync_database s fs env).state.sync_status =
          "No database in Dropbox yet - using empty database" := by
  intro s fs env m hen hdl hnf hnc
  obtain ⟨en, st, ls⟩ := s
  cases hen
  obtain ⟨dl, wr, now⟩ := env
  cases hdl
  cases fs with
  | none =>
    refine ⟨⟨some ⟨bootstrapCols, []⟩, none⟩, ⟨bootstrapCols, []⟩, ?_, rfl,
      fun _ => rfl, ?_⟩ <;>
      simp [sync_database, hnf, bootstrapDB]
  | some f =>
    cases f with
    | corrupt mm => simp [isCorruptFile] at hnc
    | db d0 =>
      cases hpd : d0.properties with
      | none =>
        refine ⟨{ d0 with properties := some ⟨bootstrapCols, []⟩ },
          ⟨bootstrapCols, []⟩, ?_, rfl, fun _ => rfl, ?_⟩ <;>
          simp [sync_database, hnf, bootstrapDB, hpd]
      | some t0 =>
        refine ⟨d0, t0, ?_, hpd, ?_, ?_⟩
        · simp [sync_database, hnf, bootstrapDB, hpd]
        · intro hft
          rw [hasPropsTable, hpd] at hft
          simp at hft
        · simp [sync_database, hnf, bootstrapDB, hpd]

/-- Witness for C8: missing remote file with no local file present. -/
theorem c8_missing_remote_bootstraps_witness :
    ∃ d t,
      (sync_database ⟨true, "Connected", none⟩ none
        ⟨.apiError "ApiError(path/not_found)", .ok, "t"⟩).fs = some (.db d) ∧
      d.properties = some t ∧
      (hasPropsTable none = false → t = ⟨bootstrapCols, []⟩) ∧
      (sync_database ⟨true, "Connected", none⟩ none
        ⟨.apiError "ApiError(path/not_found)", .ok, "t"⟩).state.sync_status =
        "No database in Dropbox yet - using empty database" :=
  c8_missing_remote_bootstraps ⟨true, "Connected", none⟩ none
    ⟨.apiError "ApiError(path/not_found)", .ok, "t"⟩ "ApiError(path/not_found)"
    rfl rfl (by decide) rfl

/-- Claim C9: last_sync changes only when a sync invocation completes
both the download and the local write successfully, and is then set to
the invocation time; construction, failed syncs of every kind, and
last-update lookups leave it unchanged. -/
theorem c9_last_sync_only_on_success :
    ∀ (s : SyncState) (fs : FS) (op : Op),
      (applyOp s fs op).1.last_sync ≠ s.last_sync →
      ∃ env content, op = .syncOp env ∧ s.enabled = true ∧
        env.download = .ok content ∧ env.write = .ok ∧
        (applyOp s fs op).1.last_sync = some env.now := by
  intro s fs op hne
  cases op with
  | lastUpdateOp => exact absurd rfl hne
  | syncOp env =>
    obtain ⟨en, st, ls⟩ := s
    cases en
    · exact absurd rfl hne
    · obtain ⟨dl, wr, now⟩ := env
      cases dl with
      | ok c =>
        cases wr with
        | ok => exact ⟨⟨.ok c, .ok, now⟩, c, rfl, rfl, rfl, rfl, rfl⟩
        | openFail m => exact absurd rfl hne
        | truncated m leftover => exact absurd rfl hne
      | apiError m =>
        refine absurd ?_ hne
        cases hnf : containsNotFound m with
        | false => simp [applyOp, sync_database, hnf]
        | true => cases hb : bootstrapDB fs <;> simp [applyOp, sync_database, hnf, hb]
      | otherError m => exact absurd rfl hne

/-- Witness for C9: a successful download and write changes last_sync
to the invocation time. -/
theorem c9_last_sync_only_on_success_witness :
    ∃ env content,
      (Op.syncOp ⟨.ok (.db wDB), .ok, "2024-01-02 10:00:00"⟩) = .syncOp env ∧
      (⟨true, "Connected", none⟩ : SyncState).enabled = true ∧
      env.download = .ok content ∧ env.write = .ok ∧
      (applyOp ⟨true, "Connected", none⟩ none
        (.syncOp ⟨.ok (.db wDB), .ok, "2024-01-02 10:00:00"⟩)).1.last_sync =
        some env.now :=
  c9_last_sync_only_on_success ⟨true, "Connected", none⟩ none
    (.syncOp ⟨.ok (.db wDB), .ok, "2024-01-02 10:00:00"⟩) (by decide)

/-- Claim C10: when the remote file is missing (and the bootstrap does
not raise), sync_database returns false even though it installs the
empty database and the benign status message, so the force_sync handler
reports success = false with that status. -/
theorem c10_missing_remote_reports_failure :
    ∀ (s : SyncState) (fs : FS) (env : SyncEnv) (m : String),
      s.enabled = true → env.download = .apiError m →
      containsNotFound m = true → isCorruptFile fs = false →
      (sync_database s fs env).result = .returns false ∧
      (force_sync s fs env).2 =
        some (200, ⟨false, "No database in Dropbox yet - using empty database"⟩) := by
  intro s fs env m hen hdl hnf hnc
  obtain ⟨en, st, ls⟩ := s
  cases hen
  obtain ⟨dl, wr, now⟩ := env
  cases hdl
  cases fs with
  | none =>
    constructor <;> simp [sync_database, force_sync, hnf, bootstrapDB]
  | some f =>
    cases f with
    | corrupt mm => simp [isCorruptFile] at hnc
    | db d0 =>
      cases hpd : d0.properties with
      | none =>
        constructor <;> simp [sync_database, force_sync, hnf, bootstrapDB, hpd]
      | some t0 =>
        constructor <;> simp [sync_database, force_sync, hnf, bootstrapDB, hpd]

/-- Witness for C10 at the missing-remote input with no local file. -/
theorem c10_missing_remote_reports_failure_witness :
    (sync_database ⟨true, "Connected", none⟩ none
      ⟨.apiError "ApiError(path/not_found)", .ok, "t"⟩).result = .returns false ∧
    (force_sync ⟨true, "Connected", none⟩ none
      ⟨.apiError "ApiError(path/not_found)", .ok, "t"⟩).2 =
      some (200, ⟨false, "No database in Dropbox yet - using empty database"⟩) :=
  c10_missing_remote_reports_failure ⟨true, "Connected", none⟩ none
    ⟨.apiError "ApiError(path/not_found)", .ok, "t"⟩ "ApiError(path/not_found)"
    rfl rfl (by decide) rfl

end HudDashboard
